import Mathlib

/-!
# Waypoint: location-sync loop and configuration resolver, verified

A shallow embedding of the Waypoint widget (`src/App.tsx` and the
`config/environment` module).  JavaScript strings are modelled as `String`
(with character-list helpers for the operations the code uses), JS numbers
appearing in the feed as exact decimals (`JsNum`, a mantissa/scale pair;
`none : Option JsNum` stands for `NaN`/`undefined` under `isNaN` — the sync
loop only ever parses, compares to `NaN`, stores and appends coordinates,
never computes with them), JS objects whose fields the code reads
dynamically as association lists keyed by field name, and `Date` values as
`Option Int` (milliseconds since the Unix epoch; `none` is an Invalid Date).
-/

namespace Waypoint

/-! ## JavaScript primitive models -/

/-- JS falsiness of a `string | undefined` value: `undefined` and `""` are
falsy, every other string is truthy. -/
def jsFalsy : Option String → Bool
  | none => true
  | some s => s = ""

/-- Dynamic property read on a JS object modelled as an association list of
field names: a missing field reads as `undefined` (`none`). -/
def jsGet : List (String × String) → String → Option String
  | [], _ => none
  | (k, v) :: rest, key => if k = key then some v else jsGet rest key

/-- `v || d` on a `string | undefined` value `v` and a string `d`. -/
def jsOrDefault (v : Option String) (d : String) : String :=
  match v with
  | some s => if s = "" then d else s
  | none => d

def isDigitCh (c : Char) : Bool := 48 ≤ c.toNat && c.toNat ≤ 57

def digToNat (c : Char) : Nat := c.toNat - 48

def natOfDigits (l : List Char) : Nat :=
  l.foldl (fun a c => 10 * a + digToNat c) 0

/-- An exact finite decimal `mant / 10 ^ scale`, the value of a JS numeric
literal as produced by `Number(string)` on the feed's coordinate texts. -/
structure JsNum where
  mant : Int
  scale : Nat
deriving DecidableEq, Repr

/-- Unsigned decimal numeral: `digits`, `digits.digits` or `.digits`. -/
def parseUnsigned (l : List Char) : Option JsNum :=
  let ip := l.takeWhile isDigitCh
  match l.dropWhile isDigitCh with
  | [] => if ip.isEmpty then none else some ⟨(natOfDigits ip : Int), 0⟩
  | '.' :: rest =>
    let fp := rest.takeWhile isDigitCh
    if (rest.dropWhile isDigitCh).isEmpty then
      if ip.isEmpty && fp.isEmpty then none
      else some ⟨(natOfDigits (ip ++ fp) : Int), fp.length⟩
    else none
  | _ => none

def isWs (c : Char) : Bool :=
  c = ' ' || c = '\t' || c = '\n' || c = '\r'

def trimChars (l : List Char) : List Char :=
  ((l.dropWhile isWs).reverse.dropWhile isWs).reverse

/-- The JS `Number(string)` conversion on the finite decimal numerals the
feed carries: whitespace is trimmed, the empty string converts to `0`, an
optional sign precedes the digits, and anything else is `NaN` (`none`). -/
def jsNumber (l : List Char) : Option JsNum :=
  let t := trimChars l
  match t with
  | [] => some ⟨0, 0⟩
  | '-' :: rest => (parseUnsigned rest).map (fun q => ⟨-q.mant, q.scale⟩)
  | '+' :: rest => parseUnsigned rest
  | _ => parseUnsigned t

/-- `string.split(",")` on character lists. -/
def splitComma : List Char → List (List Char)
  | [] => [[]]
  | ',' :: rest => [] :: splitComma rest
  | c :: rest =>
    match splitComma rest with
    | [] => [[c]]
    | g :: gs => (c :: g) :: gs

/-- Array indexing followed by the `isNaN` test: a missing element is
`undefined`, and `isNaN(undefined)` holds, so it is identified with `NaN`. -/
def jsIndex (nums : List (Option JsNum)) (i : Nat) : Option JsNum :=
  nums.getD i none

/-- `p` is a leading segment of `s`. -/
def leadsWith : List Char → List Char → Bool
  | [], _ => true
  | _ :: _, [] => false
  | a :: ps, b :: ss => a = b && leadsWith ps ss

/-! ### `Date` model -/

def isLeap (y : Nat) : Bool :=
  (y % 4 = 0 && y % 100 ≠ 0) || y % 400 = 0

def daysInMonth (y m : Nat) : Nat :=
  if m = 2 then (if isLeap y then 29 else 28)
  else if m = 4 || m = 6 || m = 9 || m = 11 then 30
  else 31

/-- Days from 0000-03-01-era civil reckoning, on a year already shifted to be
positive; standard era/year-of-era decomposition of the Gregorian calendar. -/
def daysFromCivilNat (y m d : Nat) : Nat :=
  let y2 := if m ≤ 2 then y - 1 else y
  let era := y2 / 400
  let yoe := y2 % 400
  let doy := (153 * (if m > 2 then m - 3 else m + 9) + 2) / 5 + (d - 1)
  let doe := yoe * 365 + yoe / 4 - yoe / 100 + doy
  era * 146097 + doe

/-- Milliseconds since the Unix epoch of a civil datetime (year shifted by
+400 to stay in `Nat`; 146097 days per 400-year era). -/
def epochMillis (y m d hh mm ss ms : Nat) : Int :=
  ((daysFromCivilNat (y + 400) m d : Int) - (daysFromCivilNat 2370 1 1 : Int))
      * 86400000
    + (hh * 3600000 + mm * 60000 + ss * 1000 + ms : Nat)

def parse2 (a b : Char) : Option Nat :=
  if isDigitCh a && isDigitCh b then some (10 * digToNat a + digToNat b) else none

def validDate (y m d hh mm ss : Nat) : Bool :=
  1 ≤ m && m ≤ 12 && 1 ≤ d && d ≤ daysInMonth y m && hh ≤ 23 && mm ≤ 59 && ss ≤ 59

def jsDateCore (y m d hh mm ss ms : Nat) : Option Int :=
  if validDate y m d hh mm ss then some (epochMillis y m d hh mm ss ms) else none

/-- The JS `new Date(string)` constructor on the ISO-8601 UTC datetimes the
feed carries (`YYYY-MM-DDTHH:MM:SSZ`, optionally with milliseconds); any
other string yields an Invalid Date (`none`). -/
def jsDate (l : List Char) : Option Int :=
  match l with
  | [y1, y2, y3, y4, '-', m1, m2, '-', d1, d2, 'T',
     h1, h2, ':', n1, n2, ':', s1, s2, 'Z'] =>
    match parse2 y1 y2, parse2 y3 y4, parse2 m1 m2, parse2 d1 d2,
          parse2 h1 h2, parse2 n1 n2, parse2 s1 s2 with
    | some ya, some yb, some m, some d, some hh, some mm, some ss =>
      jsDateCore (100 * ya + yb) m d hh mm ss 0
    | _, _, _, _, _, _, _ => none
  | [y1, y2, y3, y4, '-', m1, m2, '-', d1, d2, 'T',
     h1, h2, ':', n1, n2, ':', s1, s2, '.', f1, f2, f3, 'Z'] =>
    match parse2 y1 y2, parse2 y3 y4, parse2 m1 m2, parse2 d1 d2,
          parse2 h1 h2, parse2 n1 n2, parse2 s1 s2, parse2 f2 f3,
          (if isDigitCh f1 then some (digToNat f1) else none) with
    | some ya, some yb, some m, some d, some hh, some mm, some ss,
      some fb, some fa =>
      jsDateCore (100 * ya + yb) m d hh mm ss (100 * fa + fb)
    | _, _, _, _, _, _, _, _, _ => none
  | _ => none

/-! ## XML/DOM model

The browser's `DOMParser` is an external collaborator: the tick receives the
response body already parsed into an element tree, and the embedding models
the `querySelector` and `textContent` calls the code performs on it. -/

mutual
inductive Xml where
  | elem (tag : String) (children : XmlForest)
  | text (s : String)
inductive XmlForest where
  | nil
  | cons (head : Xml) (tail : XmlForest)
end

def XmlForest.ofList : List Xml → XmlForest
  | [] => .nil
  | x :: xs => .cons x (XmlForest.ofList xs)

def childrenOf : Xml → XmlForest
  | .elem _ ch => ch
  | .text _ => .nil

mutual
/-- `textContent`: the concatenated text of all descendants, in document
order, as a character list. -/
def textContentF : XmlForest → List Char
  | .nil => []
  | .cons x xs => textContentX x ++ textContentF xs
def textContentX : Xml → List Char
  | .text s => s.toList
  | .elem _ ch => textContentF ch
end

def textContent (x : Xml) : List Char := textContentX x

mutual
/-- First element with the given tag, pre-order (document order), a node
before its descendants and its descendants before its siblings. -/
def findTagF (tag : String) : XmlForest → Option Xml
  | .nil => none
  | .cons x xs =>
    match findTagX tag x with
    | some r => some r
    | none => findTagF tag xs
def findTagX (tag : String) : Xml → Option Xml
  | .text _ => none
  | .elem t ch => if t = tag then some (.elem t ch) else findTagF tag ch
end

/-- `document.querySelector(tag)`: the root element itself is eligible. -/
def docFind (tag : String) (doc : Xml) : Option Xml := findTagX tag doc

/-- `element.querySelector(tag)`: proper descendants only. -/
def elemFind (tag : String) (x : Xml) : Option Xml := findTagF tag (childrenOf x)

mutual
/-- Pre-order search for a `when` element having a `TimeStamp` ancestor; the
flag records whether a `TimeStamp` encloses the current position. -/
def findWhenF (inTS : Bool) : XmlForest → Option Xml
  | .nil => none
  | .cons x xs =>
    match findWhenX inTS x with
    | some r => some r
    | none => findWhenF inTS xs
def findWhenX (inTS : Bool) : Xml → Option Xml
  | .text _ => none
  | .elem t ch =>
    if t = "when" && inTS then some (.elem t ch)
    else findWhenF (inTS || t = "TimeStamp") ch
end

/-- `placemark.querySelector("TimeStamp when")`, the descendant combinator
evaluated within the placemark's subtree. -/
def elemFindWhen (x : Xml) : Option Xml := findWhenF false (childrenOf x)

/-! ## Configuration module (`config/environment`)

`process.env` is modelled as a partial map from variable names to strings;
`getEnv` and the `environment` object are translated field by field, with
the two `garmin`/`mapbox` sub-objects kept as JS objects (association
lists) because the sync loop reads a field of `garmin` that the module
never sets. -/

/-- `getEnv(key, defaultValue?)`: throwing is an `Except.error` carrying the
thrown message.  The presence test is JS falsiness (`!value`), and the
result is `value || defaultValue || ""`. -/
def getEnv (penv : String → Option String) (key : String)
    (defaultValue : Option String) : Except String String :=
  let value := penv key
  if jsFalsy value && defaultValue.isNone then
    .error ("Environment variable " ++ key ++ " is not set")
  else
    .ok (jsOrDefault value (jsOrDefault defaultValue ""))

structure Environment where
  mapbox : List (String × String)
  garmin : List (String × String)
deriving DecidableEq, Repr

/-- The exported `environment` object; building it evaluates the two
`getEnv` calls in source order, and a throw aborts module load. -/
def environment (penv : String → Option String) : Except String Environment :=
  match getEnv penv "MAPBOX_TOKEN" none with
  | .error e => .error e
  | .ok token =>
    match getEnv penv "GARMIN_MAPSHARE_URL"
        (some "https://share.garmin.com/feed/share") with
    | .error e => .error e
    | .ok baseUrl =>
      .ok { mapbox := [("token", token)], garmin := [("mapshareBaseUrl", baseUrl)] }

/-! ## Component state (`App.tsx`) -/

structure Location where
  lat : JsNum
  lng : JsNum
  timestamp : Option (Option Int)
deriving DecidableEq, Repr

/-- The map handle reachable from the tick: viewport center, the live
marker's `_lngLat` if a marker element exists, and the named GeoJSON
line sources (`getSource` reads them by name). -/
structure MapState where
  center : JsNum × JsNum
  marker : Option (JsNum × JsNum)
  sources : List (String × List (JsNum × JsNum))
deriving DecidableEq, Repr

structure AppState where
  currentLocation : Location
  map : Option MapState
  isTracking : Bool
  error : Option String
deriving DecidableEq, Repr

/-- `getSource(name)` on the modelled map. -/
def getSource : List (String × List (JsNum × JsNum)) → String
    → Option (List (JsNum × JsNum))
  | [], _ => none
  | (k, v) :: rest, key => if k = key then some v else getSource rest key

/-- `setData` on the named source, leaving every other source alone. -/
def setSource : List (String × List (JsNum × JsNum)) → String
    → List (JsNum × JsNum) → List (String × List (JsNum × JsNum))
  | [], _, _ => []
  | (k, v) :: rest, key, coords =>
    if k = key then (k, coords) :: rest else (k, v) :: setSource rest key coords

/-- The network outcome of one tick's `fetch`: a response with `ok` false,
or an `ok` response whose body `DOMParser` turned into a document. -/
inductive FetchResult where
  | httpError
  | ok (doc : Xml)

/-- Where control leaves `fetchGarminLocation`: the no-feed-id early return,
a thrown error caught by the handler, or a successful parse. -/
inductive TickResult where
  | noConfig
  | failMsg (msg : String)
  | success (lat lng : JsNum) (timestamp : Option Int)
deriving DecidableEq, Repr

/-- The control path of one tick, determined by the configuration object and
the network outcome alone (the component state is only written, never read,
by `fetchGarminLocation`). -/
def parseTick (garmin : List (String × String)) (net : FetchResult) : TickResult :=
  if jsFalsy (jsGet garmin "mapshareId") then .noConfig
  else
    match net with
    | .httpError => .failMsg "Failed to fetch location data"
    | .ok kmlDoc =>
      match docFind "Placemark" kmlDoc with
      | none => .failMsg "No location data found"
      | some placemark =>
        match elemFind "coordinates" placemark, elemFindWhen placemark with
        | some coordinatesElement, some timestampElement =>
          let coordinates := trimChars (textContent coordinatesElement)
          let nums := (splitComma coordinates).map jsNumber
          let lng := jsIndex nums 0
          let lat := jsIndex nums 1
          let timestamp := jsDate (textContent timestampElement)
          match lat, lng with
          | some latv, some lngv => .success latv lngv timestamp
          | _, _ => .failMsg "Invalid coordinates in KML"
        | _, _ => .failMsg "Invalid KML data structure"

/-- The success path's state writes: `setCurrentLocation`, `setError(null)`,
then — only if the map handle is set — `setCenter`, the marker move, and the
read-append-write on the `tracking-history` source. -/
def applySuccess (st : AppState) (latv lngv : JsNum) (ts : Option Int) : AppState :=
  let st1 := { st with currentLocation := ⟨latv, lngv, some ts⟩, error := none }
  match st.map with
  | none => st1
  | some m =>
    let m1 := { m with center := (lngv, latv),
                       marker := m.marker.map (fun _ => (lngv, latv)) }
    let m2 :=
      match getSource m1.sources "tracking-history" with
      | none => m1
      | some existing =>
        { m1 with sources :=
            setSource m1.sources "tracking-history" (existing ++ [(lngv, latv)]) }
    { st1 with map := some m2 }

def applyTick (st : AppState) : TickResult → AppState
  | .noConfig => { st with error := some "MapShare ID not configured in environment" }
  | .failMsg msg => { st with error := some ("Failed to fetch location: " ++ msg) }
  | .success latv lngv ts => applySuccess st latv lngv ts

/-- Whether the tick reached its `fetch` call. -/
def issuesFetch : TickResult → Bool
  | .noConfig => false
  | _ => true

/-- One run of `fetchGarminLocation`: the new component state, paired with
whether a network request was issued. -/
def fetchGarminLocation (garmin : List (String × String)) (net : FetchResult)
    (st : AppState) : AppState × Bool :=
  let r := parseTick garmin net
  (applyTick st r, issuesFetch r)

/-- A tick that reaches the success path. -/
def tickOk (garmin : List (String × String)) (net : FetchResult) : Bool :=
  match parseTick garmin net with
  | .success _ _ _ => true
  | _ => false

/-- A sequence of sync-loop ticks, one network outcome per tick. -/
def runTicks (garmin : List (String × String)) (nets : List FetchResult)
    (st : AppState) : AppState :=
  nets.foldl (fun s net => (fetchGarminLocation garmin net s).1) st

/-- The tracking-history coordinate list, when the map is ready and holds
that source. -/
def trackingOf (st : AppState) : Option (List (JsNum × JsNum)) :=
  st.map.bind (fun m => getSource m.sources "tracking-history")

/-- The route layer's coordinate list, when the map is ready and holds that
source. -/
def routeOf (st : AppState) : Option (List (JsNum × JsNum)) :=
  st.map.bind (fun m => getSource m.sources "route")

/-! ## Concrete fixtures

Initial component state per the `useState` initialisers, a map-ready state
with the two sources added by the `load` handler, the spec's example feed
body as a parsed document, and small configuration objects. -/

def initialState : AppState :=
  ⟨⟨⟨0, 0⟩, ⟨0, 0⟩, none⟩, none, false, none⟩

/-- Map state as the `load` handler leaves it: center `[-74.5, 40]`, one
marker, empty `route` and `tracking-history` sources. -/
def mapReady : MapState :=
  ⟨(⟨-745, 1⟩, ⟨40, 0⟩), some (⟨0, 0⟩, ⟨0, 0⟩),
   [("route", []), ("tracking-history", [])]⟩

def readyState : AppState :=
  ⟨⟨⟨0, 0⟩, ⟨0, 0⟩, none⟩, some mapReady, true, none⟩

/-- `<coordinates>-74.5,40.1,0</coordinates>` -/
def coordsElem : Xml := .elem "coordinates" (.ofList [.text "-74.5,40.1,0"])

/-- `<when>2024-01-01T00:00:00Z</when>` -/
def whenElem : Xml := .elem "when" (.ofList [.text "2024-01-01T00:00:00Z"])

/-- The spec's example feed body,
`<Placemark><coordinates>-74.5,40.1,0</coordinates><TimeStamp><when>2024-01-01T00:00:00Z</when></TimeStamp></Placemark>`. -/
def feedDoc : Xml :=
  .elem "Placemark" (.ofList [coordsElem, .elem "TimeStamp" (.ofList [whenElem])])

/-- A garmin configuration object that does carry a feed identifier. -/
def gReady : List (String × String) := [("mapshareId", "AB12cd")]

/-- A process environment supplying only the Mapbox token. -/
def penvTok : String → Option String :=
  fun k => if k = "MAPBOX_TOKEN" then some "mapbox-token" else none

/-- A process environment whose Mapbox token is set to the empty string. -/
def penvEmptyTok : String → Option String :=
  fun k => if k = "MAPBOX_TOKEN" then some "" else none

def envTok : Environment :=
  ⟨[("token", "mapbox-token")],
   [("mapshareBaseUrl", "https://share.garmin.com/feed/share")]⟩

/-- `<coordinates>abc,12.3</coordinates>` — non-numeric first component. -/
def badCoordsElem : Xml := .elem "coordinates" (.ofList [.text "abc,12.3"])

def badCoordsDoc : Xml :=
  .elem "Placemark" (.ofList [badCoordsElem, .elem "TimeStamp" (.ofList [whenElem])])

/-- A placemark with neither a `coordinates` nor a `TimeStamp` child. -/
def bareDoc : Xml := .elem "Placemark" (.ofList [.text "no nodes here"])

/-- `<when>not-a-date</when>` — an unparseable timestamp text. -/
def badWhenElem : Xml := .elem "when" (.ofList [.text "not-a-date"])

def badWhenDoc : Xml :=
  .elem "Placemark" (.ofList [coordsElem, .elem "TimeStamp" (.ofList [badWhenElem])])

deriving instance DecidableEq for Except

/-! ## Helper lemmas -/

theorem getSource_set_self (l : List (String × List (JsNum × JsNum)))
    (key : String) (v0 v : List (JsNum × JsNum))
    (h : getSource l key = some v0) :
    getSource (setSource l key v) key = some v := by
  induction l with
  | nil => simp [getSource] at h
  | cons p rest ih =>
    obtain ⟨k, w⟩ := p
    by_cases hk : k = key
    · subst hk; simp [getSource, setSource]
    · simp [getSource, setSource, hk] at h ⊢
      exact ih h

theorem getSource_set_ne (l : List (String × List (JsNum × JsNum)))
    (key k2 : String) (v : List (JsNum × JsNum)) (h : k2 ≠ key) :
    getSource (setSource l key v) k2 = getSource l k2 := by
  induction l with
  | nil => simp [setSource]
  | cons p rest ih =>
    obtain ⟨k, w⟩ := p
    by_cases hk : k = key
    · subst hk
      simp [getSource, setSource, Ne.symm h]
    · simp [getSource, setSource, hk, ih]

theorem countP_partition {α : Type} (p : α → Bool) (l : List α) :
    l.countP p + l.countP (fun a => !(p a)) = l.length := by
  induction l with
  | nil => simp
  | cons a rest ih =>
    cases hpa : p a <;> simp [List.countP_cons, hpa] <;> omega

/-- Success-path projections of `applySuccess`: `Location` and the error
banner are written the same way whether or not the map is ready. -/
theorem applySuccess_currentLocation (st : AppState) (latv lngv : JsNum)
    (ts : Option Int) :
    (applySuccess st latv lngv ts).currentLocation = ⟨latv, lngv, some ts⟩ := by
  cases hm : st.map <;> simp [applySuccess, hm]

theorem applySuccess_error (st : AppState) (latv lngv : JsNum) (ts : Option Int) :
    (applySuccess st latv lngv ts).error = none := by
  cases hm : st.map <;> simp [applySuccess, hm]

/-- The control path of a tick whose document carries a placemark with both
a coordinates text that yields two numeric components and a
`TimeStamp`/`when` node. -/
theorem parseTick_success (garmin : List (String × String)) (doc pm ce te : Xml)
    (latv lngv : JsNum)
    (hid : jsFalsy (jsGet garmin "mapshareId") = false)
    (hpm : docFind "Placemark" doc = some pm)
    (hce : elemFind "coordinates" pm = some ce)
    (hte : elemFindWhen pm = some te)
    (hlng : jsIndex ((splitComma (trimChars (textContent ce))).map jsNumber) 0 = some lngv)
    (hlat : jsIndex ((splitComma (trimChars (textContent ce))).map jsNumber) 1 = some latv) :
    parseTick garmin (.ok doc) = .success latv lngv (jsDate (textContent te)) := by
  simp [parseTick, hid, hpm, hce, hte, hlng, hlat]

/-- One tick's effect on the map layers, when the map is ready and the
`tracking-history` source exists: a successful tick appends exactly one
point to it, a failed tick appends none, and the `route` source is left
alone either way. -/
theorem tick_evolution (garmin : List (String × String)) (net : FetchResult)
    (st : AppState) (l : List (JsNum × JsNum)) (h : trackingOf st = some l) :
    ∃ tail, trackingOf (fetchGarminLocation garmin net st).1 = some (l ++ tail) ∧
      tail.length = (if tickOk garmin net then 1 else 0) ∧
      routeOf (fetchGarminLocation garmin net st).1 = routeOf st := by
  cases hm : st.map with
  | none => rw [trackingOf, hm] at h; simp at h
  | some m =>
    rw [trackingOf, hm] at h
    simp only [Option.some_bind] at h
    cases hr : parseTick garmin net with
    | noConfig =>
      exact ⟨[], by simp [fetchGarminLocation, hr, applyTick, trackingOf, hm, h],
        by simp [tickOk, hr], by simp [fetchGarminLocation, hr, applyTick, routeOf, hm]⟩
    | failMsg msg =>
      exact ⟨[], by simp [fetchGarminLocation, hr, applyTick, trackingOf, hm, h],
        by simp [tickOk, hr], by simp [fetchGarminLocation, hr, applyTick, routeOf, hm]⟩
    | success latv lngv ts =>
      refine ⟨[(lngv, latv)], ?_, by simp [tickOk, hr], ?_⟩
      · simp [fetchGarminLocation, hr, applyTick, applySuccess, hm, h, trackingOf]
        exact getSource_set_self _ _ _ _ h
      · simp [fetchGarminLocation, hr, applyTick, applySuccess, hm, h, routeOf]
        exact getSource_set_ne _ _ _ _ (by decide)

/-! ## Claims -/

/-- C1: over any run of the sync loop on a map-ready state whose
tracking-history source holds `l`, the tracking-history coordinate list only
ever grows by appending — each successful tick appends exactly one `(lng,
lat)` point and each failed tick appends none, so after `nets` ticks the
list is `l` extended by one point per successful tick (length `N − K` from
an empty start, with `N` ticks and `K` failures) — and the `route` source is
never touched. -/
theorem tracking_history_append_only (garmin : List (String × String)) :
    ∀ (nets : List FetchResult) (st : AppState) (l : List (JsNum × JsNum)),
      trackingOf st = some l →
      ∃ tail, trackingOf (runTicks garmin nets st) = some (l ++ tail) ∧
        tail.length = nets.countP (tickOk garmin) ∧
        routeOf (runTicks garmin nets st) = routeOf st ∧
        nets.countP (tickOk garmin) =
          nets.length - nets.countP (fun net => !(tickOk garmin net)) := by
  intro nets
  induction nets with
  | nil =>
    intro st l h
    exact ⟨[], by simpa [runTicks] using h, by simp, rfl, by simp⟩
  | cons net rest ih =>
    intro st l h
    obtain ⟨t1, h1, h1len, h1route⟩ := tick_evolution garmin net st l h
    obtain ⟨t2, h2, h2len, h2route, _⟩ :=
      ih ((fetchGarminLocation garmin net st).1) (l ++ t1) h1
    have hrun : runTicks garmin (net :: rest) st =
        runTicks garmin rest ((fetchGarminLocation garmin net st).1) := rfl
    have hpart := countP_partition (tickOk garmin) (net :: rest)
    refine ⟨t1 ++ t2, ?_, ?_, ?_, ?_⟩
    · rw [hrun, h2, List.append_assoc]
    · rw [List.length_append, h1len, h2len, List.countP_cons]
      cases tickOk garmin net <;> simp
      all_goals omega
    · rw [hrun, h2route, h1route]
    · omega

/-- C1 witness: three ticks against a map-ready state with an empty
tracking history — the first and third succeed on the example feed, the
second fails with an HTTP error — leave a two-point history and an
untouched route. -/
theorem tracking_history_append_only_witness :
    ∃ tail,
      trackingOf (runTicks gReady [.ok feedDoc, .httpError, .ok feedDoc] readyState) =
        some ([] ++ tail) ∧
      tail.length = [FetchResult.ok feedDoc, .httpError, .ok feedDoc].countP (tickOk gReady) ∧
      routeOf (runTicks gReady [.ok feedDoc, .httpError, .ok feedDoc] readyState) =
        routeOf readyState ∧
      [FetchResult.ok feedDoc, .httpError, .ok feedDoc].countP (tickOk gReady) =
        [FetchResult.ok feedDoc, .httpError, .ok feedDoc].length -
          [FetchResult.ok feedDoc, .httpError, .ok feedDoc].countP
            (fun net => !(tickOk gReady net)) :=
  tracking_history_append_only gReady [.ok feedDoc, .httpError, .ok feedDoc]
    readyState [] rfl

/-- C4: whenever the feed identifier read from the configuration object is
falsy at the start of a tick, the tick only writes the error banner — the
exact message is `"MapShare ID not configured in environment"`, which begins
with `"MapShare ID not configured"` — performs no network fetch (second
component `false`), and leaves `currentLocation`, the map and the
`isTracking` flag exactly as they were, so the polling loop keeps running. -/
theorem missing_mapshare_id_tick (garmin : List (String × String))
    (net : FetchResult) (st : AppState)
    (h : jsFalsy (jsGet garmin "mapshareId") = true) :
    fetchGarminLocation garmin net st =
      ({ st with error := some "MapShare ID not configured in environment" }, false) ∧
    leadsWith "MapShare ID not configured".toList
      "MapShare ID not configured in environment".toList = true := by
  exact ⟨by simp [fetchGarminLocation, parseTick, h, applyTick, issuesFetch], by decide⟩

/-- C4 witness: the tick at a configuration object lacking `mapshareId`. -/
theorem missing_mapshare_id_tick_witness :
    fetchGarminLocation [("mapshareBaseUrl", "https://share.garmin.com/feed/share")]
        .httpError initialState =
      ({ initialState with
          error := some "MapShare ID not configured in environment" }, false) ∧
    leadsWith "MapShare ID not configured".toList
      "MapShare ID not configured in environment".toList = true :=
  missing_mapshare_id_tick [("mapshareBaseUrl", "https://share.garmin.com/feed/share")]
    .httpError initialState (by decide)

/-- C2: whatever the process environment contains, when the `environment`
module loads successfully its `garmin` object carries no `mapshareId` field
(reading one gives `undefined`), so every tick of the sync loop takes the
"MapShare ID not configured in environment" branch and issues no network
request. -/
theorem no_mapshare_id_in_environment (penv : String → Option String)
    (env : Environment) (h : environment penv = .ok env) :
    jsGet env.garmin "mapshareId" = none ∧
    ∀ (net : FetchResult) (st : AppState),
      fetchGarminLocation env.garmin net st =
        ({ st with error := some "MapShare ID not configured in environment" }, false) := by
  unfold environment at h
  cases h1 : getEnv penv "MAPBOX_TOKEN" none with
  | error e => rw [h1] at h; simp at h
  | ok token =>
    cases h2 : getEnv penv "GARMIN_MAPSHARE_URL"
        (some "https://share.garmin.com/feed/share") with
    | error e => rw [h1, h2] at h; simp at h
    | ok baseUrl =>
      rw [h1, h2] at h
      simp only [Except.ok.injEq] at h
      subst h
      exact ⟨rfl, fun net st => rfl⟩

/-- C2 witness: at an environment that supplies only the Mapbox token, the
module loads, its `garmin` object has no `mapshareId`, and a tick errors
without fetching. -/
theorem no_mapshare_id_in_environment_witness :
    jsGet envTok.garmin "mapshareId" = none ∧
    fetchGarminLocation envTok.garmin .httpError initialState =
      ({ initialState with
          error := some "MapShare ID not configured in environment" }, false) :=
  ⟨(no_mapshare_id_in_environment penvTok envTok rfl).1,
   (no_mapshare_id_in_environment penvTok envTok rfl).2 .httpError initialState⟩

/-- C3: for a feed document whose placemark carries a comma-separated
coordinates text with two numeric components and a `TimeStamp`/`when` text,
a tick with a configured feed identifier reaches the success path and sets
`Location.lng` to the first component, `Location.lat` to the second, and
`Location.timestamp` to the `Date` parsed from the `when` text, clearing the
error banner. -/
theorem valid_feed_parses_to_location (garmin : List (String × String))
    (doc pm ce te : Xml) (latv lngv : JsNum) (st : AppState)
    (hid : jsFalsy (jsGet garmin "mapshareId") = false)
    (hpm : docFind "Placemark" doc = some pm)
    (hce : elemFind "coordinates" pm = some ce)
    (hte : elemFindWhen pm = some te)
    (hlng : jsIndex ((splitComma (trimChars (textContent ce))).map jsNumber) 0 = some lngv)
    (hlat : jsIndex ((splitComma (trimChars (textContent ce))).map jsNumber) 1 = some latv) :
    parseTick garmin (.ok doc) = .success latv lngv (jsDate (textContent te)) ∧
    (fetchGarminLocation garmin (.ok doc) st).1.currentLocation =
      ⟨latv, lngv, some (jsDate (textContent te))⟩ ∧
    (fetchGarminLocation garmin (.ok doc) st).1.error = none := by
  have hp := parseTick_success garmin doc pm ce te latv lngv hid hpm hce hte hlng hlat
  exact ⟨hp, by simp [fetchGarminLocation, hp, applyTick, applySuccess_currentLocation],
    by simp [fetchGarminLocation, hp, applyTick, applySuccess_error]⟩

/-- C3 witness: the spec's example body
`<Placemark><coordinates>-74.5,40.1,0</coordinates><TimeStamp><when>2024-01-01T00:00:00Z</when></TimeStamp></Placemark>`
yields `lat = 40.1`, `lng = -74.5` and the timestamp 2024-01-01T00:00:00Z
(epoch 1704067200000 ms). -/
theorem valid_feed_parses_to_location_witness :
    (fetchGarminLocation gReady (.ok feedDoc) initialState).1.currentLocation =
      ⟨⟨401, 1⟩, ⟨-745, 1⟩, some (some 1704067200000)⟩ ∧
    (fetchGarminLocation gReady (.ok feedDoc) initialState).1.error = none :=
  ⟨((valid_feed_parses_to_location gReady feedDoc feedDoc coordsElem whenElem
      ⟨401, 1⟩ ⟨-745, 1⟩ initialState (by decide) rfl rfl rfl (by decide)
      (by decide)).2.1).trans (by decide),
   (valid_feed_parses_to_location gReady feedDoc feedDoc coordsElem whenElem
      ⟨401, 1⟩ ⟨-745, 1⟩ initialState (by decide) rfl rfl rfl (by decide)
      (by decide)).2.2⟩

/-- C5: a feed whose coordinates text has a non-numeric first or second
component makes the tick fail with the invalid-coordinates error; the whole
component state — `currentLocation`, the map with its layers, the tracking
flag — is unchanged except for the error banner. -/
theorem invalid_coordinates_tick (garmin : List (String × String))
    (doc pm ce te : Xml) (st : AppState)
    (hid : jsFalsy (jsGet garmin "mapshareId") = false)
    (hpm : docFind "Placemark" doc = some pm)
    (hce : elemFind "coordinates" pm = some ce)
    (hte : elemFindWhen pm = some te)
    (hbad : jsIndex ((splitComma (trimChars (textContent ce))).map jsNumber) 0 = none ∨
      jsIndex ((splitComma (trimChars (textContent ce))).map jsNumber) 1 = none) :
    fetchGarminLocation garmin (.ok doc) st =
      ({ st with error := some "Failed to fetch location: Invalid coordinates in KML" },
       true) := by
  have hp : parseTick garmin (.ok doc) = .failMsg "Invalid coordinates in KML" := by
    rcases hbad with hb | hb
    · cases hl : jsIndex ((splitComma (trimChars (textContent ce))).map jsNumber) 1 with
      | none => simp [parseTick, hid, hpm, hce, hte, hl]
      | some latv => simp [parseTick, hid, hpm, hce, hte, hl, hb]
    · simp [parseTick, hid, hpm, hce, hte, hb]
  simp [fetchGarminLocation, hp, applyTick, issuesFetch]

/-- C5 witness: the coordinates text `abc,12.3` (first component `NaN`)
against a map-ready state — only the error banner changes. -/
theorem invalid_coordinates_tick_witness :
    fetchGarminLocation gReady (.ok badCoordsDoc) readyState =
      ({ readyState with
          error := some "Failed to fetch location: Invalid coordinates in KML" }, true) :=
  invalid_coordinates_tick gReady badCoordsDoc badCoordsDoc badCoordsElem whenElem
    readyState (by decide) rfl rfl rfl (Or.inl (by decide))

/-- C6: a feed document whose placemark lacks a `coordinates` element or a
`TimeStamp`/`when` element makes the tick fail with the malformed-feed
error; `currentLocation` (and everything else but the banner) is
unchanged. -/
theorem malformed_feed_tick (garmin : List (String × String)) (doc pm : Xml)
    (st : AppState)
    (hid : jsFalsy (jsGet garmin "mapshareId") = false)
    (hpm : docFind "Placemark" doc = some pm)
    (hmiss : elemFind "coordinates" pm = none ∨ elemFindWhen pm = none) :
    fetchGarminLocation garmin (.ok doc) st =
      ({ st with error := some "Failed to fetch location: Invalid KML data structure" },
       true) := by
  have hp : parseTick garmin (.ok doc) = .failMsg "Invalid KML data structure" := by
    rcases hmiss with hb | hb
    · simp [parseTick, hid, hpm, hb]
    · cases hc : elemFind "coordinates" pm with
      | none => simp [parseTick, hid, hpm, hc]
      | some ce => simp [parseTick, hid, hpm, hc, hb]
  simp [fetchGarminLocation, hp, applyTick, issuesFetch]

/-- C6 witness: a placemark with neither child element. -/
theorem malformed_feed_tick_witness :
    fetchGarminLocation gReady (.ok bareDoc) initialState =
      ({ initialState with
          error := some "Failed to fetch location: Invalid KML data structure" }, true) :=
  malformed_feed_tick gReady bareDoc bareDoc initialState (by decide) rfl (Or.inl rfl)

/-- C8: before the map-ready signal has fired (`map` still `null`), a
successful tick updates `Location`, clears the error banner, and performs no
map operation at all — the `map` component of the state (here `none`) and
the tracking flag are untouched, and no error is raised. -/
theorem tick_before_map_ready (garmin : List (String × String)) (net : FetchResult)
    (st : AppState) (latv lngv : JsNum) (ts : Option Int)
    (hmap : st.map = none)
    (hs : parseTick garmin net = .success latv lngv ts) :
    fetchGarminLocation garmin net st =
      ({ st with currentLocation := ⟨latv, lngv, some ts⟩, error := none }, true) := by
  simp [fetchGarminLocation, hs, applyTick, applySuccess, hmap, issuesFetch]

/-- C8 witness: a successful tick against the initial (map-less) state. -/
theorem tick_before_map_ready_witness :
    fetchGarminLocation gReady (.ok feedDoc) initialState =
      ({ initialState with
          currentLocation := ⟨⟨401, 1⟩, ⟨-745, 1⟩, some (some 1704067200000)⟩,
          error := none }, true) :=
  tick_before_map_ready gReady (.ok feedDoc) initialState ⟨401, 1⟩ ⟨-745, 1⟩
    (some 1704067200000) rfl (by decide)

/-- C10: the `when` text is never validated — if it parses as no date
(`new Date` gives an Invalid Date, `none` here), the tick still reaches the
success path, clears the error banner, and stores a `Location` whose
timestamp is the invalid `Date`. -/
theorem unparseable_timestamp_still_succeeds (garmin : List (String × String))
    (doc pm ce te : Xml) (latv lngv : JsNum) (st : AppState)
    (hid : jsFalsy (jsGet garmin "mapshareId") = false)
    (hpm : docFind "Placemark" doc = some pm)
    (hce : elemFind "coordinates" pm = some ce)
    (hte : elemFindWhen pm = some te)
    (hlng : jsIndex ((splitComma (trimChars (textContent ce))).map jsNumber) 0 = some lngv)
    (hlat : jsIndex ((splitComma (trimChars (textContent ce))).map jsNumber) 1 = some latv)
    (hts : jsDate (textContent te) = none) :
    parseTick garmin (.ok doc) = .success latv lngv none ∧
    (fetchGarminLocation garmin (.ok doc) st).1.error = none ∧
    (fetchGarminLocation garmin (.ok doc) st).1.currentLocation =
      ⟨latv, lngv, some none⟩ := by
  have hp := parseTick_success garmin doc pm ce te latv lngv hid hpm hce hte hlng hlat
  rw [hts] at hp
  exact ⟨hp, by simp [fetchGarminLocation, hp, applyTick, applySuccess_error],
    by simp [fetchGarminLocation, hp, applyTick, applySuccess_currentLocation]⟩

/-- C10 witness: `when` text `not-a-date` still produces a successful tick
with an invalid timestamp. -/
theorem unparseable_timestamp_still_succeeds_witness :
    parseTick gReady (.ok badWhenDoc) = .success ⟨401, 1⟩ ⟨-745, 1⟩ none ∧
    (fetchGarminLocation gReady (.ok badWhenDoc) initialState).1.error = none ∧
    (fetchGarminLocation gReady (.ok badWhenDoc) initialState).1.currentLocation =
      ⟨⟨401, 1⟩, ⟨-745, 1⟩, some none⟩ :=
  unparseable_timestamp_still_succeeds gReady badWhenDoc badWhenDoc coordsElem
    badWhenElem ⟨401, 1⟩ ⟨-745, 1⟩ initialState (by decide) rfl rfl rfl (by decide)
    (by decide) (by decide)

/-- C7 counterexample: `MAPBOX_TOKEN` present in the environment but equal
to the empty string — the resolver does not return the provided string; it
throws the missing-variable error instead. -/
theorem getEnv_present_empty_counterexample :
    penvEmptyTok "MAPBOX_TOKEN" = some "" ∧
    getEnv penvEmptyTok "MAPBOX_TOKEN" none =
      .error "Environment variable MAPBOX_TOKEN is not set" ∧
    getEnv penvEmptyTok "MAPBOX_TOKEN" none ≠ .ok "" :=
  ⟨rfl, rfl, by decide⟩

/-- C7 (amended): the resolver returns the environment-provided string when
it is present and non-empty; when it is absent or set to the empty string,
it fails with the missing-configuration error if no default was supplied,
and returns the default otherwise. -/
theorem getEnv_resolution (penv : String → Option String) (key : String)
    (defaultValue : Option String) :
    (∀ s, penv key = some s → s ≠ "" → getEnv penv key defaultValue = .ok s) ∧
    ((penv key = none ∨ penv key = some "") →
      (defaultValue = none →
        getEnv penv key defaultValue =
          .error ("Environment variable " ++ key ++ " is not set")) ∧
      (∀ d, defaultValue = some d → getEnv penv key defaultValue = .ok d)) := by
  refine ⟨?_, ?_⟩
  · intro s hs hne
    have hf : jsFalsy (some s) = false := by
      simp [jsFalsy]
      exact hne
    simp [getEnv, hs, hf, jsOrDefault, hne]
  · intro habs
    refine ⟨?_, ?_⟩
    · intro hd
      subst hd
      rcases habs with h | h <;> simp [getEnv, h, jsFalsy]
    · intro d hd
      subst hd
      rcases habs with h | h <;>
        (simp [getEnv, h, jsFalsy, jsOrDefault]
         by_cases hd0 : d = "" <;> simp [hd0])

/-- C7 witness: the two resolutions the config module performs — a present
non-empty token is returned as-is, and the absent feed URL falls back to its
default. -/
theorem getEnv_resolution_witness :
    getEnv penvTok "MAPBOX_TOKEN" none = .ok "mapbox-token" ∧
    getEnv penvTok "GARMIN_MAPSHARE_URL" (some "https://share.garmin.com/feed/share") =
      .ok "https://share.garmin.com/feed/share" :=
  ⟨(getEnv_resolution penvTok "MAPBOX_TOKEN" none).1 "mapbox-token" rfl (by decide),
   ((getEnv_resolution penvTok "GARMIN_MAPSHARE_URL"
      (some "https://share.garmin.com/feed/share")).2 (Or.inl rfl)).2
      "https://share.garmin.com/feed/share" rfl⟩

/-- C9: an environment variable set to the empty string behaves exactly as
an absent one — the resolver's result is the same as on an environment
where the key is removed, the default is returned when one exists, and the
missing-variable error is thrown when none was supplied — because the
presence check tests falsiness (`!value`) rather than definedness. -/
theorem getEnv_empty_as_absent (penv : String → Option String) (key : String)
    (h : penv key = some "") :
    (∀ defaultValue, getEnv penv key defaultValue =
      getEnv (fun k => if k = key then none else penv k) key defaultValue) ∧
    (∀ d, getEnv penv key (some d) = .ok d) ∧
    getEnv penv key none = .error ("Environment variable " ++ key ++ " is not set") := by
  refine ⟨?_, ?_, ?_⟩
  · intro dv
    simp [getEnv, h, jsFalsy, jsOrDefault]
  · intro d
    simp [getEnv, h, jsFalsy, jsOrDefault]
    by_cases hd0 : d = "" <;> simp [hd0]
  · simp [getEnv, h, jsFalsy]

/-- C9 witness: an empty `MAPBOX_TOKEN` with a default supplied returns the
default. -/
theorem getEnv_empty_as_absent_witness :
    getEnv penvEmptyTok "MAPBOX_TOKEN" (some "fallback-token") = .ok "fallback-token" :=
  (getEnv_empty_as_absent penvEmptyTok "MAPBOX_TOKEN" rfl).2.1 "fallback-token"

end Waypoint
